import Mathlib

/-!
Verification of flask_cqlalchemy (`flask_cqlalchemy/__init__.py`) against its
natural-language specification.

The development shallowly embeds the three pieces of logic in the module:

* `handel_db_timeout.execute` — the bounded timeout-retry executor.  The target
  operation is modelled as a function `Nat → Outcome α` giving the outcome of
  each successive invocation (0-indexed); the Cassandra session is modelled by
  its truthiness (`hasSession`) together with its mutable `default_timeout`
  field (`Option Nat`, `none` standing for Python `None`).  `execute` threads
  that state through the retry loop exactly as the Python code does, recording
  the result, the number of invocations of the target operation, the final
  session timeout, and the timeout in effect at each invocation.
* `get_subclasses` / `flatten` — the subclass enumerator over the model-class
  tree, embedded as a recursive function on `MTree` (abstract flag, name,
  direct subclasses in declaration order).
* `CQLAlchemy.init_app` / `CQLAlchemy.set_keyspace` — the facade binder and the
  keyspace switcher, with Python truthiness of the configuration values made
  explicit and attribute/key errors surfaced as `Except` errors.
-/

/-! ## The timeout-retry executor (`handel_db_timeout.execute`) -/

/-- Outcome of one invocation of the wrapped operation `self.func`:
it returns a value, raises the configured retryable error (`self.error`,
default `OperationTimedOut`), or raises some other exception. -/
inductive Outcome (α : Type) where
  | ok (v : α)
  | errRetry
  | errOther
deriving Repr, DecidableEq

/-- How a call to `handel_db_timeout.execute` terminates: returning a value,
raising the retryable error kind (`raise self.error` after the loop), or
propagating a non-retryable exception. -/
inductive ExecResult (α : Type) where
  | ok (v : α)
  | raisedRetry
  | raisedOther
deriving Repr, DecidableEq

/-- Python truthiness of a timeout value: `None` and `0` are falsy. -/
def truthy : Option Nat → Bool
  | none => false
  | some n => n != 0

/-- Observable effect of one `execute` call: the way it terminated, how many
times the wrapped operation was invoked, the session's `default_timeout` when
`execute` returned or raised, and the `default_timeout` in effect at each
invocation of the wrapped operation (in order). -/
structure ExecOut (α : Type) where
  result : ExecResult α
  calls : Nat
  timeout : Option Nat
  trace : List (Option Nat)
deriving Repr, DecidableEq

/-- The `finally` block of each loop iteration:
`if self.session and default_timeout: self.session.default_timeout = default_timeout`. -/
def restoreTimeout (hasSession : Bool) (saved st : Option Nat) : Option Nat :=
  if hasSession && truthy saved then saved else st

/-- The `for _ in range(self.tries)` loop of `handel_db_timeout.execute`.

Arguments: outcomes of successive invocations `func`, session truthiness after
lazy resolution `hasSession` (`if self.session:`; the lazy
`from ... import session` fetch on the first retryable failure resolves to a
fixed session object, so its truthiness is constant across the call), remaining
iterations, index of the next invocation, the local variable `default_timeout`
(`saved`, initially Python `None`), and the session's current
`default_timeout` (`st`).  When the loop exhausts its iterations the method
runs `raise self.error`. -/
def execLoop {α : Type} (func : Nat → Outcome α) (hasSession : Bool) :
    Nat → Nat → Option Nat → Option Nat → ExecOut α
  | 0, i, _saved, st => ⟨ExecResult.raisedRetry, i, st, []⟩
  | Nat.succ k, i, saved, st =>
    match func i with
    | Outcome.ok v =>
        ⟨ExecResult.ok v, i + 1, restoreTimeout hasSession saved st, [st]⟩
    | Outcome.errOther =>
        ⟨ExecResult.raisedOther, i + 1, restoreTimeout hasSession saved st, [st]⟩
    | Outcome.errRetry =>
        let saved2 := if hasSession then st else saved
        let st2 := if hasSession then some 100 else st
        let out := execLoop func hasSession k (i + 1) saved2
          (restoreTimeout hasSession saved2 st2)
        ⟨out.result, out.calls, out.timeout, st :: out.trace⟩

/-- `handel_db_timeout.execute(*args, **kwargs)`: run the loop with the local
`default_timeout = None` and the session's initial `default_timeout` `st0`. -/
def execute {α : Type} (func : Nat → Outcome α) (hasSession : Bool)
    (tries : Nat) (st0 : Option Nat) : ExecOut α :=
  execLoop func hasSession tries 0 none st0

/-- Operation that raises the retryable error on every invocation. -/
def alwaysTimeout : Nat → Outcome Nat := fun _ => Outcome.errRetry

/-- Operation that raises the retryable error before invocation `k` and
returns `v` on invocation `k` (0-indexed). -/
def okAt (k v : Nat) : Nat → Outcome Nat :=
  fun i => if i = k then Outcome.ok v else Outcome.errRetry

/-- Operation that raises a non-retryable error on every invocation. -/
def alwaysOther : Nat → Outcome Nat := fun _ => Outcome.errOther

/-! ### Loop lemmas for `execute` -/

theorem execLoop_allRetry {α : Type} (func : Nat → Outcome α) (hs : Bool) :
    ∀ (k i : Nat) (saved st : Option Nat),
      (∀ j, j < k → func (i + j) = Outcome.errRetry) →
      (execLoop func hs k i saved st).result = ExecResult.raisedRetry ∧
      (execLoop func hs k i saved st).calls = i + k := by
  intro k
  induction k with
  | zero => intro i saved st _; exact ⟨rfl, rfl⟩
  | succ k ih =>
    intro i saved st h
    have h0 : func i = Outcome.errRetry := by
      simpa using h 0 (Nat.succ_pos k)
    have h' : ∀ j, j < k → func (i + 1 + j) = Outcome.errRetry := by
      intro j hj
      have := h (j + 1) (Nat.succ_lt_succ hj)
      rwa [show i + (j + 1) = i + 1 + j by omega] at this
    have ihr := ih (i + 1) (if hs then st else saved)
      (restoreTimeout hs (if hs then st else saved) (if hs then some 100 else st)) h'
    rw [execLoop, h0]
    refine ⟨ihr.1, ?_⟩
    rw [ihr.2]
    omega

theorem execLoop_okAt {α : Type} (func : Nat → Outcome α) (hs : Bool) :
    ∀ (m k i : Nat) (saved st : Option Nat) (v : α),
      m < k →
      (∀ j, j < m → func (i + j) = Outcome.errRetry) →
      func (i + m) = Outcome.ok v →
      (execLoop func hs k i saved st).result = ExecResult.ok v ∧
      (execLoop func hs k i saved st).calls = i + m + 1 := by
  intro m
  induction m with
  | zero =>
    intro k i saved st v hk _ hok
    obtain ⟨k', rfl⟩ : ∃ k', k = k' + 1 := ⟨k - 1, by omega⟩
    rw [execLoop, show func i = Outcome.ok v by simpa using hok]
    exact ⟨rfl, rfl⟩
  | succ m ih =>
    intro k i saved st v hk hfail hok
    obtain ⟨k', rfl⟩ : ∃ k', k = k' + 1 := ⟨k - 1, by omega⟩
    have h0 : func i = Outcome.errRetry := by
      simpa using hfail 0 (Nat.succ_pos m)
    have hfail' : ∀ j, j < m → func (i + 1 + j) = Outcome.errRetry := by
      intro j hj
      have := hfail (j + 1) (Nat.succ_lt_succ hj)
      rwa [show i + (j + 1) = i + 1 + j by omega] at this
    have hok' : func (i + 1 + m) = Outcome.ok v := by
      rwa [show i + 1 + m = i + (m + 1) by omega]
    have ihr := ih k' (i + 1) (if hs then st else saved)
      (restoreTimeout hs (if hs then st else saved) (if hs then some 100 else st)) v
      (by omega) hfail' hok'
    rw [execLoop, h0]
    refine ⟨ihr.1, ?_⟩
    rw [ihr.2]
    omega

theorem execLoop_otherFirst {α : Type} (func : Nat → Outcome α) (hs : Bool)
    (k i : Nat) (saved st : Option Nat) (hk : 0 < k)
    (h : func i = Outcome.errOther) :
    (execLoop func hs k i saved st).result = ExecResult.raisedOther ∧
    (execLoop func hs k i saved st).calls = i + 1 := by
  obtain ⟨k', rfl⟩ : ∃ k', k = k' + 1 := ⟨k - 1, by omega⟩
  rw [execLoop, h]
  exact ⟨rfl, rfl⟩

theorem execLoop_trace_head {α : Type} (func : Nat → Outcome α) (hs : Bool)
    (k i : Nat) (saved st : Option Nat) (hk : 0 < k) :
    (execLoop func hs k i saved st).trace.get? 0 = some st := by
  obtain ⟨k', rfl⟩ : ∃ k', k = k' + 1 := ⟨k - 1, by omega⟩
  rw [execLoop]
  cases hf : func i <;> rfl

theorem execLoop_timeout_truthy {α : Type} (func : Nat → Outcome α)
    (st0 : Option Nat) (ht : truthy st0 = true) :
    ∀ (k i : Nat) (saved : Option Nat), (saved = none ∨ saved = st0) →
      (execLoop func true k i saved st0).timeout = st0 := by
  intro k
  induction k with
  | zero => intro i saved _; rfl
  | succ k ih =>
    intro i saved hsaved
    rw [execLoop]
    cases hf : func i with
    | ok v =>
      rcases hsaved with rfl | rfl
      · simp [restoreTimeout, truthy]
      · simp [restoreTimeout, ht]
    | errOther =>
      rcases hsaved with rfl | rfl
      · simp [restoreTimeout, truthy]
      · simp [restoreTimeout, ht]
    | errRetry =>
      simpa [restoreTimeout, ht] using ih (i + 1) st0 (Or.inr rfl)

theorem execLoop_timeout_100 {α : Type} (func : Nat → Outcome α) :
    ∀ (k i : Nat) (saved : Option Nat),
      (truthy saved = false ∨ saved = some 100) →
      (execLoop func true k i saved (some 100)).timeout = some 100 := by
  intro k
  induction k with
  | zero => intro i saved _; rfl
  | succ k ih =>
    intro i saved hsaved
    rw [execLoop]
    cases hf : func i with
    | ok v =>
      rcases hsaved with ht | rfl
      · simp [restoreTimeout, ht]
      · simp [restoreTimeout, truthy]
    | errOther =>
      rcases hsaved with ht | rfl
      · simp [restoreTimeout, ht]
      · simp [restoreTimeout, truthy]
    | errRetry =>
      simpa [restoreTimeout, truthy] using ih (i + 1) (some 100) (Or.inr rfl)

/-! ## Claims about the timeout-retry executor -/

/-- C1: for every operation `func` and attempt bound `tries`, if `func` raises
the retryable error on every attempt then `execute` invokes it exactly `tries`
times and then raises the retryable error kind; if `func` succeeds on attempt
`k ≤ tries` (first `k - 1` attempts retryable failures), `execute` returns its
result after exactly `k` invocations. -/
theorem C1_execute_attempt_bound {α : Type} (func : Nat → Outcome α)
    (hs : Bool) (tries : Nat) (st0 : Option Nat) :
    ((∀ i, i < tries → func i = Outcome.errRetry) →
      (execute func hs tries st0).result = ExecResult.raisedRetry ∧
      (execute func hs tries st0).calls = tries)
    ∧ (∀ k v, 1 ≤ k → k ≤ tries →
        (∀ i, i < k - 1 → func i = Outcome.errRetry) →
        func (k - 1) = Outcome.ok v →
        (execute func hs tries st0).result = ExecResult.ok v ∧
        (execute func hs tries st0).calls = k) := by
  constructor
  · intro h
    have hr := execLoop_allRetry func hs tries 0 none st0 (by simpa using h)
    rw [execute]
    exact ⟨hr.1, by rw [hr.2]; omega⟩
  · intro k v h1 h2 hfail hok
    have hr := execLoop_okAt func hs (k - 1) tries 0 none st0 v (by omega)
      (by simpa using hfail) (by simpa using hok)
    rw [execute]
    exact ⟨hr.1, by rw [hr.2]; omega⟩

/-- Witness for C1 at concrete inputs: `tries = 2` with an always-timing-out
operation gives 2 invocations then the retryable error; `tries = 3` with an
operation succeeding on attempt 2 returns its value after 2 invocations. -/
theorem C1_execute_attempt_bound_witness :
    ((execute alwaysTimeout true 2 (some 10)).result = ExecResult.raisedRetry ∧
      (execute alwaysTimeout true 2 (some 10)).calls = 2) ∧
    ((execute (okAt 1 7) true 3 (some 10)).result = ExecResult.ok 7 ∧
      (execute (okAt 1 7) true 3 (some 10)).calls = 2) :=
  ⟨(C1_execute_attempt_bound alwaysTimeout true 2 (some 10)).1 (fun i _ => rfl),
   (C1_execute_attempt_bound (okAt 1 7) true 3 (some 10)).2 2 7 (by decide)
     (by decide) (fun i hi => by
       have hi0 : i = 0 := by omega
       rw [hi0]; rfl)
     (by decide)⟩

/-- C2 counterexample: session available, original `default_timeout = 10`
(truthy), operation always timing out, `tries = 2`.  The per-iteration
`finally` restores the original timeout before the second attempt, so the
second attempt runs with `default_timeout = 10`, not the elevated 100 that the
claim asserts. -/
theorem C2_elevated_timeout_counterexample :
    (execute alwaysTimeout true 2 (some 10)).trace = [some 10, some 10] ∧
    (execute alwaysTimeout true 2 (some 10)).trace.get? 1 ≠ some (some 100) := by
  decide

/-- C2 amended: after a first-attempt retryable failure with a session
available, the next attempt runs with `default_timeout = 100` only when the
original timeout was falsy (`None` or `0`); when the original timeout is
truthy the iteration's `finally` block restores it before the next attempt,
which therefore runs with the original value. -/
theorem C2_elevated_timeout_amended {α : Type} (func : Nat → Outcome α)
    (tries : Nat) (st0 : Option Nat) (h2 : 2 ≤ tries)
    (h0 : func 0 = Outcome.errRetry) :
    (execute func true tries st0).trace.get? 1 =
      some (if truthy st0 then st0 else some 100) := by
  obtain ⟨k, rfl⟩ : ∃ k, tries = k + 2 := ⟨tries - 2, by omega⟩
  rw [execute, execLoop, h0]
  simp only [if_true, List.get?_cons_succ]
  have hh := execLoop_trace_head func true (k + 1) 1 st0
    (restoreTimeout true st0 (some 100)) (Nat.succ_pos k)
  rw [hh]
  by_cases ht : truthy st0
  · simp [restoreTimeout, ht]
  · simp [restoreTimeout, ht]

/-- Witness for C2 amended: original timeout `10` (truthy) — second attempt
runs with `10`; original timeout `None` — second attempt runs with `100`. -/
theorem C2_elevated_timeout_amended_witness :
    (execute alwaysTimeout true 2 (some 10)).trace.get? 1 =
      some (if truthy (some 10) then some 10 else some 100) ∧
    (execute alwaysTimeout true 2 none).trace.get? 1 =
      some (if truthy none then none else some 100) :=
  ⟨C2_elevated_timeout_amended alwaysTimeout 2 (some 10) (by decide) rfl,
   C2_elevated_timeout_amended alwaysTimeout 2 none (by decide) rfl⟩

/-- C3 counterexample: session available, original `default_timeout = None`,
operation timing out on the first attempt and succeeding on the second
(`tries = 2`).  `execute` returns the operation's result, but the session's
`default_timeout` is left at the elevated value `100` instead of being
restored to `None`: the `finally` guard `if self.session and default_timeout`
is false when the recorded original is `None`, so the restore never fires. -/
theorem C3_restore_counterexample :
    (execute (okAt 1 7) true 2 none).result = ExecResult.ok 7 ∧
    (execute (okAt 1 7) true 2 none).timeout = some 100 ∧
    (execute (okAt 1 7) true 2 none).timeout ≠ none := by
  decide

/-- C3 amended: with a session available, the session's `default_timeout` on
termination of `execute` equals its value from before the call whenever that
original value is truthy (neither `None` nor `0`) — for every operation,
attempt bound and termination mode; but when the original value is falsy
(`None` or `0`) and the first attempt fails with the retryable error,
`execute` terminates with the session's `default_timeout` left at the
elevated value `100`. -/
theorem C3_restore_amended {α : Type} (func : Nat → Outcome α)
    (tries : Nat) (st0 : Option Nat) :
    (truthy st0 = true → (execute func true tries st0).timeout = st0)
    ∧ (truthy st0 = false → 1 ≤ tries → func 0 = Outcome.errRetry →
        (execute func true tries st0).timeout = some 100) := by
  constructor
  · intro ht
    rw [execute]
    exact execLoop_timeout_truthy func st0 ht tries 0 none (Or.inl rfl)
  · intro h0 h1 hf
    obtain ⟨k, rfl⟩ : ∃ k, tries = k + 1 := ⟨tries - 1, by omega⟩
    rw [execute, execLoop, hf]
    simp only [if_true]
    simpa [restoreTimeout, h0] using
      execLoop_timeout_100 func k 1 st0 (Or.inl h0)

/-- Witness for C3 amended: original timeout `10` is restored whatever the
operation does; the falsy originals `None` and `0` with a first-attempt
timeout both leave the session at `100`. -/
theorem C3_restore_amended_witness :
    (execute alwaysTimeout true 2 (some 10)).timeout = some 10 ∧
    (execute alwaysTimeout true 2 none).timeout = some 100 ∧
    (execute alwaysTimeout true 2 (some 0)).timeout = some 100 :=
  ⟨(C3_restore_amended alwaysTimeout 2 (some 10)).1 (by decide),
   (C3_restore_amended alwaysTimeout 2 none).2 (by decide) (by decide) rfl,
   (C3_restore_amended alwaysTimeout 2 (some 0)).2 (by decide) (by decide) rfl⟩

/-- C7: an operation that raises a non-retryable error on its first invocation
is invoked exactly once and the error propagates to the caller immediately,
for every attempt bound `tries ≥ 1`, session state and error position. -/
theorem C7_nonretryable_propagates {α : Type} (func : Nat → Outcome α)
    (hs : Bool) (tries : Nat) (st0 : Option Nat) (h1 : 1 ≤ tries)
    (h0 : func 0 = Outcome.errOther) :
    (execute func hs tries st0).result = ExecResult.raisedOther ∧
    (execute func hs tries st0).calls = 1 := by
  rw [execute]
  exact execLoop_otherFirst func hs tries 0 none st0 (by omega) h0

/-- Witness for C7: non-retryable failure with `tries = 5` — one invocation,
error propagated. -/
theorem C7_nonretryable_propagates_witness :
    (execute alwaysOther true 5 (some 10)).result = ExecResult.raisedOther ∧
    (execute alwaysOther true 5 (some 10)).calls = 1 :=
  C7_nonretryable_propagates alwaysOther true 5 (some 10) (by decide) rfl

/-! ## The subclass enumerator (`get_subclasses`, `flatten`) -/

/-- A model class in the inheritance tree: its `__abstract__` flag, its name,
and its direct subclasses (`cls.__subclasses__()`) in declaration order. -/
inductive MTree where
  | node (abstract : Bool) (name : String) (subs : List MTree)
deriving Repr

/-- `flatten(lists)`: flatten a list of lists into a single list
(`[item for sublist in lists for item in sublist]`). -/
def flatten {α : Type} (lists : List (List α)) : List α :=
  List.flatten lists

/-- `get_subclasses(cls)`: if `cls.__abstract__`, flatten the recursive
enumeration of each direct subclass; otherwise return `[cls]`. -/
def get_subclasses : MTree → List MTree
  | MTree.node true _ subs =>
      flatten (subs.attach.map (fun s => get_subclasses s.1))
  | MTree.node false n subs => [MTree.node false n subs]
decreasing_by
  have h := List.sizeOf_lt_of_mem s.2
  simp only [MTree.node.sizeOf_spec]
  omega

/-- `drop_tables(db)`: enumerate the concrete models under `db.Model` and, for
each, run `handel_db_timeout(drop_table).execute(model)`.  The driver's
`drop_table` succeeds immediately here, so each executor performs one
invocation; the result records every executor run. -/
def drop_tables (dbModel : MTree) : List (ExecOut MTree) :=
  (get_subclasses dbModel).map
    (fun model => execute (fun _ => Outcome.ok model) false 2 none)

/-- Total number of invocations of the driver's `drop_table` operation that a
`drop_tables(db)` call performs. -/
def drop_tables_calls (dbModel : MTree) : Nat :=
  ((drop_tables dbModel).map (fun out => out.calls)).sum

/-- Modelled from the spec: "if the type is abstract, recursively enumerate
each direct subclass and concatenate (flatten) the results, preserving
subclass declaration order; if the type is concrete, return a single-element
sequence containing it." -/
def specEnum : MTree → List MTree
  | MTree.node true _ subs =>
      flatten (subs.attach.map (fun s => specEnum s.1))
  | MTree.node false n subs => [MTree.node false n subs]
decreasing_by
  have h := List.sizeOf_lt_of_mem s.2
  simp only [MTree.node.sizeOf_spec]
  omega

/-- Every class in the tree (the type itself and all transitive subclasses)
carries the abstract flag — i.e. the tree has zero concrete types. -/
def allAbstract : MTree → Bool
  | MTree.node b _ subs => b && subs.attach.all (fun s => allAbstract s.1)
decreasing_by
  have h := List.sizeOf_lt_of_mem s.2
  simp only [MTree.node.sizeOf_spec]
  omega

/-- The `Animal`/`Dog`/`Cat`/`Puppy` scenario: `Animal` abstract with direct
subclasses `Dog` and `Cat` (concrete), `Dog` with direct concrete subclass
`Puppy`. -/
def puppy : MTree := MTree.node false "Puppy" []

def dog : MTree := MTree.node false "Dog" [puppy]

def cat : MTree := MTree.node false "Cat" []

def animal : MTree := MTree.node true "Animal" [dog, cat]

/-! ### Lemmas about the subclass enumerator -/

theorem get_subclasses_animal : get_subclasses animal = [dog, cat] := by
  simp [get_subclasses, animal, dog, cat, flatten]

theorem get_subclasses_eq_specEnum : ∀ t, get_subclasses t = specEnum t := by
  intro t
  induction t using get_subclasses.induct with
  | case1 n subs ih =>
    rw [get_subclasses, specEnum]
    congr 1
    exact List.map_congr_left (fun s _ => ih s)
  | case2 n subs => rw [get_subclasses, specEnum]

theorem get_subclasses_allAbstract :
    ∀ t, allAbstract t = true → get_subclasses t = [] := by
  intro t
  induction t using get_subclasses.induct with
  | case1 n subs ih =>
    intro h
    rw [allAbstract] at h
    simp only [Bool.and_eq_true, List.all_eq_true] at h
    rw [get_subclasses, flatten]
    rw [List.flatten_eq_nil_iff]
    intro l hl
    simp only [List.mem_map, List.mem_attach] at hl
    obtain ⟨s, _, rfl⟩ := hl
    exact ih s (h.2 s (List.mem_attach subs s))
  | case2 n subs =>
    intro h
    rw [allAbstract] at h
    simp at h

/-! ## Claims about the subclass enumerator -/

/-- C5 counterexample: in the `Animal` → `Dog`, `Cat`; `Dog` → `Puppy`
scenario, `get_subclasses(Animal)` does not return `[Dog, Cat, Puppy]` and
`drop_tables` does not invoke the drop operation three times: recursion stops
at the first concrete class, so `Puppy` (a concrete subclass of the concrete
`Dog`) is never enumerated. -/
theorem C5_scenario_counterexample :
    get_subclasses animal ≠ [dog, cat, puppy] ∧
    drop_tables_calls animal ≠ 3 := by
  constructor
  · rw [get_subclasses_animal]
    intro h
    have hlen := congrArg List.length h
    simp at hlen
  · rw [drop_tables_calls, drop_tables, get_subclasses_animal]
    decide

/-- C5 amended: in the scenario, `get_subclasses(Animal)` returns `[Dog, Cat]`
in declaration order — the traversal stops at the first concrete type, so
`Puppy` is excluded even though it is concrete and reachable — and
`drop_tables` invokes the drop-table operation exactly twice, once per
returned type. -/
theorem C5_scenario_amended :
    get_subclasses animal = [dog, cat] ∧
    drop_tables_calls animal = 2 := by
  refine ⟨get_subclasses_animal, ?_⟩
  rw [drop_tables_calls, drop_tables, get_subclasses_animal]
  decide

/-- C6: `get_subclasses` coincides with the reference enumerator transcribed
from the spec (abstract ⇒ flatten the recursive enumerations of the direct
subclasses in declaration order; concrete ⇒ singleton), and on a base type
whose tree contains zero concrete types the enumeration is empty. -/
theorem C6_enumerator_refines_spec :
    (∀ t, get_subclasses t = specEnum t) ∧
    (∀ t, allAbstract t = true → get_subclasses t = []) :=
  ⟨get_subclasses_eq_specEnum, get_subclasses_allAbstract⟩

/-- Witness for C6 on a concrete all-abstract two-level tree. -/
theorem C6_enumerator_refines_spec_witness :
    get_subclasses (MTree.node true "Base" [MTree.node true "Mid" []]) =
      specEnum (MTree.node true "Base" [MTree.node true "Mid" []]) ∧
    get_subclasses (MTree.node true "Base" [MTree.node true "Mid" []]) = [] :=
  ⟨C6_enumerator_refines_spec.1 (MTree.node true "Base" [MTree.node true "Mid" []]),
   C6_enumerator_refines_spec.2 (MTree.node true "Base" [MTree.node true "Mid" []])
     (by simp [allAbstract])⟩

/-! ## The facade/binder (`CQLAlchemy.init_app`, `CQLAlchemy.set_keyspace`) -/

/-- The application configuration mapping, restricted to the keys `init_app`
reads.  `none` means the key is absent from `app.config`; for the two required
keys an absent key makes the subscript access raise `KeyError`.  The four
optional keys are read with `app.config.get(..., default)`. -/
structure AppConfig where
  hosts : Option (List String)
  keyspace : Option String
  consistency : Option Nat
  lazy_connect : Option Bool
  retry_connect : Option Bool
  setup_kwargs : Option (List (String × String))
deriving Repr, DecidableEq

/-- How `init_app` can fail: `KeyError` from `app.config['...']` on an absent
required key, or the module's `NoConfig` exception. -/
inductive InitErr where
  | keyErr
  | noConfig
deriving Repr, DecidableEq

/-- The arguments `init_app` hands to `connection.setup` on success (hosts,
keyspace, consistency, lazy_connect, retry_connect, extra kwargs). -/
structure CQLBound where
  hosts : List String
  keyspace : String
  consistency : Nat
  lazy_connect : Bool
  retry_connect : Bool
  setup_kwargs : List (String × String)
deriving Repr, DecidableEq

/-- `CQLAlchemy.init_app(app)`: read `CASSANDRA_HOSTS` and
`CASSANDRA_KEYSPACE` (raising `KeyError` when absent), read the optional keys
with their defaults, raise `NoConfig` when
`not self._hosts_ and self._keyspace_` (hosts falsy AND keyspace truthy —
the code's condition as written), and otherwise call `connection.setup` with
the collected parameters. -/
def init_app (cfg : AppConfig) : Except InitErr CQLBound :=
  match cfg.hosts, cfg.keyspace with
  | some hs, some ks =>
      if hs.isEmpty && (ks != "") then
        Except.error InitErr.noConfig
      else
        Except.ok ⟨hs, ks, cfg.consistency.getD 1, cfg.lazy_connect.getD false,
          cfg.retry_connect.getD false, cfg.setup_kwargs.getD []⟩
  | _, _ => Except.error InitErr.keyErr

/-- The facade's state as far as the keyspace logic observes it: `self.app`
(assigned only by the constructor, `None` when constructed without an
application) and `self._keyspace_` (`none` while the attribute is unset). -/
structure CQLAlchemy where
  app : Option AppConfig
  keyspace : Option String
deriving Repr, DecidableEq

/-- Binding a facade via `init_app`: on success stores `_keyspace_` on the
facade; `self.app` is never assigned here. -/
def CQLAlchemy.bind (self : CQLAlchemy) (cfg : AppConfig) :
    Except InitErr CQLAlchemy :=
  match init_app cfg with
  | Except.error e => Except.error e
  | Except.ok b => Except.ok { self with keyspace := some b.keyspace }

/-- The constructor `CQLAlchemy(app)`: stores `self.app = app` and, when an
application was passed, immediately calls `init_app` on it. -/
def CQLAlchemy.new (app : Option AppConfig) : Except InitErr CQLAlchemy :=
  match app with
  | none => Except.ok ⟨none, none⟩
  | some cfg => CQLAlchemy.bind ⟨some cfg, none⟩ cfg

/-- How `set_keyspace` can fail: `AttributeError` from `self.app.config` when
`self.app` is `None`, or `KeyError` when `CASSANDRA_KEYSPACE` is absent. -/
inductive KsErr where
  | attrNone
  | keyErr
deriving Repr, DecidableEq

/-- `CQLAlchemy.set_keyspace(keyspace_name=None)`: when the argument is falsy
(`None` or the empty string) replace it by
`self.app.config['CASSANDRA_KEYSPACE']`; then assign `models.DEFAULT_KEYSPACE`
(the first component of the result) and `self._keyspace_` (the updated
facade). -/
def set_keyspace (self : CQLAlchemy) (keyspace_name : Option String) :
    Except KsErr (String × CQLAlchemy) :=
  if keyspace_name.getD "" = "" then
    match self.app with
    | none => Except.error KsErr.attrNone
    | some cfg =>
        match cfg.keyspace with
        | none => Except.error KsErr.keyErr
        | some ks => Except.ok (ks, { self with keyspace := some ks })
  else
    Except.ok (keyspace_name.getD "",
      { self with keyspace := some (keyspace_name.getD "") })

/-- A well-formed configuration: one host, keyspace `"main"`. -/
def cfgEx : AppConfig := ⟨some ["127.0.0.1"], some "main", none, none, none, none⟩

/-- The facade obtained from `CQLAlchemy(app)` on `cfgEx`. -/
def facadeEx : CQLAlchemy := ⟨some cfgEx, some "main"⟩

/-- A configuration whose `CASSANDRA_KEYSPACE` is present but empty. -/
def cfgEmptyKs : AppConfig := ⟨some ["127.0.0.1"], some "", none, none, none, none⟩

/-- The facade obtained from `CQLAlchemy(app)` on `cfgEmptyKs`. -/
def facadeEmptyKs : CQLAlchemy := ⟨some cfgEmptyKs, some ""⟩

/-! ## Claims about the facade/binder -/

/-- C4: the code's guard is `not self._hosts_ and self._keyspace_`, so
`NoConfig` is raised only when hosts is falsy AND keyspace is truthy — not
"iff hosts or keyspace is absent/falsy" as the claim (and the `NoConfig`
docstring) state.  At the failing inputs: hosts present and truthy with an
empty keyspace binds successfully, and hosts empty with an empty keyspace
also binds successfully; only hosts-falsy-with-truthy-keyspace raises. -/
theorem C4_init_app_guard_evaluation :
    init_app ⟨some ["127.0.0.1"], some "", none, none, none, none⟩ =
      Except.ok ⟨["127.0.0.1"], "", 1, false, false, []⟩ ∧
    init_app ⟨some [], some "", none, none, none, none⟩ =
      Except.ok ⟨[], "", 1, false, false, []⟩ ∧
    init_app ⟨some [], some "ks", none, none, none, none⟩ =
      Except.error InitErr.noConfig :=
  ⟨rfl, rfl, rfl⟩

/-- C8: for a facade whose `self.app` holds a configuration with keyspace
`ks0`, `set_keyspace()` with no argument writes `ks0` to the process-wide
`models.DEFAULT_KEYSPACE` and to the facade's `_keyspace_` field, and
`set_keyspace(s)` for any truthy `s` (such as `"other"`) writes `s` to
both. -/
theorem C8_set_keyspace_reset_and_override (self : CQLAlchemy)
    (cfg : AppConfig) (ks0 : String)
    (happ : self.app = some cfg) (hks : cfg.keyspace = some ks0) :
    set_keyspace self none =
      Except.ok (ks0, { self with keyspace := some ks0 }) ∧
    (∀ s : String, s ≠ "" →
      set_keyspace self (some s) =
        Except.ok (s, { self with keyspace := some s })) := by
  constructor
  · rw [set_keyspace]
    simp [happ, hks]
  · intro s hs
    rw [set_keyspace]
    simp [hs]

/-- Witness for C8 on the concrete bound facade: no-argument call resets to
`"main"`; `set_keyspace("other")` switches both fields to `"other"`. -/
theorem C8_set_keyspace_reset_and_override_witness :
    set_keyspace facadeEx none =
      Except.ok ("main", ⟨some cfgEx, some "main"⟩) ∧
    set_keyspace facadeEx (some "other") =
      Except.ok ("other", ⟨some cfgEx, some "other"⟩) :=
  ⟨(C8_set_keyspace_reset_and_override facadeEx cfgEx "main" rfl rfl).1,
   (C8_set_keyspace_reset_and_override facadeEx cfgEx "main" rfl rfl).2
     "other" (by decide)⟩

/-- C9: a facade constructed as `CQLAlchemy()` (no application) and then bound
via `init_app` keeps `self.app = None` — `init_app` stores `_hosts_` and
`_keyspace_` but never assigns `self.app` — so a subsequent no-argument
`set_keyspace()` raises an `AttributeError` reading `.config` on `None`
instead of resetting the keyspace. -/
theorem C9_init_app_does_not_set_app (cfg : AppConfig) (f : CQLAlchemy)
    (hb : CQLAlchemy.bind ⟨none, none⟩ cfg = Except.ok f) :
    f.app = none ∧ set_keyspace f none = Except.error KsErr.attrNone := by
  rw [CQLAlchemy.bind] at hb
  cases hi : init_app cfg with
  | error e => rw [hi] at hb; exact absurd hb (by simp)
  | ok b =>
    rw [hi] at hb
    simp only [Except.ok.injEq] at hb
    subst hb
    exact ⟨rfl, by rw [set_keyspace]; simp⟩

/-- Witness for C9: bind the app-less facade against `cfgEx`; the result still
has `app = none` and the no-argument `set_keyspace` fails. -/
theorem C9_init_app_does_not_set_app_witness :
    CQLAlchemy.bind ⟨none, none⟩ cfgEx = Except.ok ⟨none, some "main"⟩ ∧
    (CQLAlchemy.mk none (some "main")).app = none ∧
    set_keyspace ⟨none, some "main"⟩ none = Except.error KsErr.attrNone :=
  ⟨rfl,
   (C9_init_app_does_not_set_app cfgEx ⟨none, some "main"⟩ rfl).1,
   (C9_init_app_does_not_set_app cfgEx ⟨none, some "main"⟩ rfl).2⟩

/-- C10 counterexample: `cfgEmptyKs` (empty configured keyspace) is accepted
by the binder — `CQLAlchemy(app)` yields `facadeEmptyKs` — and on that facade
`set_keyspace("")` writes the empty string to the process-wide
`models.DEFAULT_KEYSPACE`, contradicting the claim that the keyspace is never
set to the empty string. -/
theorem C10_falsy_argument_counterexample :
    CQLAlchemy.new (some cfgEmptyKs) = Except.ok facadeEmptyKs ∧
    set_keyspace facadeEmptyKs (some "") = Except.ok ("", facadeEmptyKs) :=
  ⟨rfl, rfl⟩

/-- C10 amended: `set_keyspace` treats every falsy argument (`""` or `None`)
exactly like an omitted argument — both reset the process-wide default
keyspace and the facade's field to the configured keyspace value — and the
value written is the empty string precisely when the configured keyspace is
itself empty. -/
theorem C10_falsy_argument_amended (self : CQLAlchemy)
    (cfg : AppConfig) (ks0 : String)
    (happ : self.app = some cfg) (hks : cfg.keyspace = some ks0) :
    set_keyspace self (some "") = set_keyspace self none ∧
    set_keyspace self (some "") =
      Except.ok (ks0, { self with keyspace := some ks0 }) := by
  constructor
  · rfl
  · rw [set_keyspace]
    simp [happ, hks]

/-- Witness for C10 amended on the concrete bound facade: `set_keyspace("")`
coincides with the no-argument call and resets to `"main"`. -/
theorem C10_falsy_argument_amended_witness :
    set_keyspace facadeEx (some "") = set_keyspace facadeEx none ∧
    set_keyspace facadeEx (some "") =
      Except.ok ("main", ⟨some cfgEx, some "main"⟩) :=
  ⟨(C10_falsy_argument_amended facadeEx cfgEx "main" rfl rfl).1,
   (C10_falsy_argument_amended facadeEx cfgEx "main" rfl rfl).2⟩
